import Mathlib

/-!
Shallow embedding of the american-football play-resolution engine
(src/football/engine/game_state.py, play_call.py, engine.py).

Python `int` is modelled as `ℤ`; Python lists of ints as `List ℤ`;
Python `bool` as `Bool`; enum values as inductive types carrying their
Python `.name` through a `pyName` function.  The engine RNG
(`rng.randint(a, b)`) is modelled as an oracle `rand : ℤ → ℤ → ℤ`
passed to `resolve_play`; claims that depend on the drawn value
quantify over the oracle.  Negative quarter numbers (which would hit
Python's negative-index semantics in `with_added_points`) are outside
the modelled domain: every claim about scoring assumes `1 ≤ quarter`,
matching the documented field range.
-/

namespace Football

/-- `Side` enum from game_state.py. -/
inductive Side where
  | HOME
  | AWAY
deriving DecidableEq, Repr

/-- Python `.name` of a `Side`. -/
def Side.pyName : Side → String
  | .HOME => "HOME"
  | .AWAY => "AWAY"

/-- `ScoreByQuarter` from game_state.py: per-quarter scores, index 0 = Q1. -/
structure ScoreByQuarter where
  home : List ℤ
  away : List ℤ
deriving DecidableEq, Repr

/-- `ScoreByQuarter.initial`: four quarters, all zeros. -/
def ScoreByQuarter.initial : ScoreByQuarter :=
  { home := [0, 0, 0, 0], away := [0, 0, 0, 0] }

/-- `ScoreByQuarter.add_points`: grow both lists while
`quarter_index >= len(home)`, then add `points` to the given side's
entry at `quarter_index`.  The growth count is driven by `home`'s
length, exactly as in the source. -/
def ScoreByQuarter.add_points (s : ScoreByQuarter) (side : Side)
    (quarter_index : ℕ) (points : ℤ) : ScoreByQuarter :=
  let grow := quarter_index + 1 - s.home.length
  let home := s.home ++ List.replicate grow 0
  let away := s.away ++ List.replicate grow 0
  if side = Side.HOME then
    { home := home.set quarter_index (home.getD quarter_index 0 + points)
      away := away }
  else
    { home := home
      away := away.set quarter_index (away.getD quarter_index 0 + points) }

/-- `ScoreByQuarter.home_total`. -/
def ScoreByQuarter.home_total (s : ScoreByQuarter) : ℤ := s.home.sum

/-- `ScoreByQuarter.away_total`. -/
def ScoreByQuarter.away_total (s : ScoreByQuarter) : ℤ := s.away.sum

/-- `GameState` from game_state.py (all fields of the dataclass). -/
structure GameState where
  home_name : String
  home_abbr : String
  away_name : String
  away_abbr : String
  quarter : ℤ
  time_remaining : ℤ
  possession : Side
  down : ℤ
  distance : ℤ
  yard_line : ℤ
  hash_mark : String
  home_timeouts : ℤ
  away_timeouts : ℤ
  scores : ScoreByQuarter
  current_drive_play_count : ℤ
  current_drive_yards : ℤ
  current_drive_start_yard_line : ℤ
  clock_running : Bool
  game_over : Bool
deriving DecidableEq, Repr

/-- `GameState.offense_side`: which side currently has the ball. -/
def GameState.offense_side (s : GameState) : Side := s.possession

/-- `GameState.defense_side`. -/
def GameState.defense_side (s : GameState) : Side :=
  if s.possession = Side.AWAY then Side.HOME else Side.AWAY

/-- `GameState.yard_line_from_offense_perspective`: 0–100 from the
offense's point of view (flip the field when AWAY has the ball). -/
def GameState.yard_line_from_offense_perspective (s : GameState) : ℤ :=
  if s.possession = Side.HOME then s.yard_line else 100 - s.yard_line

/-- `GameState.with_added_points`: copy scores and add points at
quarter index `quarter - 1`. -/
def GameState.with_added_points (s : GameState) (side : Side) (points : ℤ) :
    GameState :=
  { s with scores := s.scores.add_points side (s.quarter - 1).toNat points }

/-- `GameState.home_score_total`. -/
def GameState.home_score_total (s : GameState) : ℤ := s.scores.home_total

/-- `GameState.away_score_total`. -/
def GameState.away_score_total (s : GameState) : ℤ := s.scores.away_total

/-- The clamped post-play yard line computed at the top of
`GameState.next_down_after_play`: move by `yards_gained` in HOME's
direction of play, then clamp to the field `[0, 100]`. -/
def GameState.clamped_spot_after (s : GameState) (yards_gained : ℤ) : ℤ :=
  max 0 (min 100
    (s.yard_line + (if s.possession = Side.HOME then yards_gained else -yards_gained)))

/-- `GameState.next_down_after_play` from game_state.py: update
down / distance / yard_line / drive counters after a play. -/
def GameState.next_down_after_play (s : GameState) (yards_gained : ℤ)
    (first_down_gained : Bool) (touchdown : Bool) (turnover : Bool) : GameState :=
  let new_yard_line := s.clamped_spot_after yards_gained
  if touchdown = true ∨ new_yard_line = 0 ∨ new_yard_line = 100 then
    { s with yard_line := new_yard_line }
  else if turnover = true then
    { s with possession := s.defense_side
             down := 1
             distance := 10
             yard_line := new_yard_line
             current_drive_play_count := 0
             current_drive_yards := 0
             current_drive_start_yard_line := new_yard_line }
  else if first_down_gained = true then
    { s with down := 1
             distance := 10
             yard_line := new_yard_line
             current_drive_play_count := s.current_drive_play_count + 1
             current_drive_yards := s.current_drive_yards + yards_gained }
  else
    let next_down := s.down + 1
    if 4 < next_down then
      { s with possession := s.defense_side
               down := 1
               distance := 10
               yard_line := new_yard_line
               current_drive_play_count := 0
               current_drive_yards := 0
               current_drive_start_yard_line := new_yard_line }
    else
      { s with down := next_down
               distance := max 1 (s.distance - yards_gained)
               yard_line := new_yard_line
               current_drive_play_count := s.current_drive_play_count + 1
               current_drive_yards := s.current_drive_yards + yards_gained }

/-! ### play_call.py -/

/-- `OffensePlayType` enum from play_call.py. -/
inductive OffensePlayType where
  | INSIDE_ZONE | OUTSIDE_ZONE | POWER | COUNTER | TRAP | ISO | SWEEP | TOSS
  | DRAW | DELAY | QB_SNEAK | QB_KEEPER | READ_OPTION | SPEED_OPTION
  | JET_SWEEP | REVERSE
  | QUICK_SLANT | QUICK_OUT | QUICK_HITCH | BUBBLE_SCREEN | SMOKE_SCREEN
  | RB_SCREEN | TE_SCREEN
  | DIG | COMEBACK | DEEP_OUT | CROSSERS | MESH | SEAM
  | GO | POST | CORNER | FADE | DEEP_CROSS
  | PLAY_ACTION_SHORT | PLAY_ACTION_SHOT | BOOTLEG | ROLL_OUT
  | SPIKE | KNEEL
deriving DecidableEq, Repr

/-- Python `.name` of an `OffensePlayType`. -/
def OffensePlayType.pyName : OffensePlayType → String
  | .INSIDE_ZONE => "INSIDE_ZONE"
  | .OUTSIDE_ZONE => "OUTSIDE_ZONE"
  | .POWER => "POWER"
  | .COUNTER => "COUNTER"
  | .TRAP => "TRAP"
  | .ISO => "ISO"
  | .SWEEP => "SWEEP"
  | .TOSS => "TOSS"
  | .DRAW => "DRAW"
  | .DELAY => "DELAY"
  | .QB_SNEAK => "QB_SNEAK"
  | .QB_KEEPER => "QB_KEEPER"
  | .READ_OPTION => "READ_OPTION"
  | .SPEED_OPTION => "SPEED_OPTION"
  | .JET_SWEEP => "JET_SWEEP"
  | .REVERSE => "REVERSE"
  | .QUICK_SLANT => "QUICK_SLANT"
  | .QUICK_OUT => "QUICK_OUT"
  | .QUICK_HITCH => "QUICK_HITCH"
  | .BUBBLE_SCREEN => "BUBBLE_SCREEN"
  | .SMOKE_SCREEN => "SMOKE_SCREEN"
  | .RB_SCREEN => "RB_SCREEN"
  | .TE_SCREEN => "TE_SCREEN"
  | .DIG => "DIG"
  | .COMEBACK => "COMEBACK"
  | .DEEP_OUT => "DEEP_OUT"
  | .CROSSERS => "CROSSERS"
  | .MESH => "MESH"
  | .SEAM => "SEAM"
  | .GO => "GO"
  | .POST => "POST"
  | .CORNER => "CORNER"
  | .FADE => "FADE"
  | .DEEP_CROSS => "DEEP_CROSS"
  | .PLAY_ACTION_SHORT => "PLAY_ACTION_SHORT"
  | .PLAY_ACTION_SHOT => "PLAY_ACTION_SHOT"
  | .BOOTLEG => "BOOTLEG"
  | .ROLL_OUT => "ROLL_OUT"
  | .SPIKE => "SPIKE"
  | .KNEEL => "KNEEL"

/-- `DefenseFront` enum from play_call.py. -/
inductive DefenseFront where
  | FOUR_THREE | THREE_FOUR | NICKEL | DIME | QUARTER | GOAL_LINE
deriving DecidableEq, Repr

/-- `DefensePlayFlavor` enum from play_call.py. -/
inductive DefensePlayFlavor where
  | BASE
  | RUN_FOCUS | RUN_BLITZ | GOAL_LINE_SOLD_OUT
  | PASS_FOCUS | PASS_BLITZ | ALL_OUT_BLITZ
  | PREVENT | CONTAIN | QB_SPY
deriving DecidableEq, Repr

/-- Python `.name` of a `DefensePlayFlavor`. -/
def DefensePlayFlavor.pyName : DefensePlayFlavor → String
  | .BASE => "BASE"
  | .RUN_FOCUS => "RUN_FOCUS"
  | .RUN_BLITZ => "RUN_BLITZ"
  | .GOAL_LINE_SOLD_OUT => "GOAL_LINE_SOLD_OUT"
  | .PASS_FOCUS => "PASS_FOCUS"
  | .PASS_BLITZ => "PASS_BLITZ"
  | .ALL_OUT_BLITZ => "ALL_OUT_BLITZ"
  | .PREVENT => "PREVENT"
  | .CONTAIN => "CONTAIN"
  | .QB_SPY => "QB_SPY"

/-- `CoverageShell` enum from play_call.py. -/
inductive CoverageShell where
  | ZERO | COVER_1 | COVER_2 | TAMPA_2 | COVER_3 | COVER_4 | COVER_6
deriving DecidableEq, Repr

/-- `OffensivePlayCall` dataclass (fields the engine reads; the optional
direction / depth / target / token metadata is never consulted by
`resolve_play` and is omitted). -/
structure OffensivePlayCall where
  side : Side
  play_type : OffensePlayType
deriving DecidableEq, Repr

/-- `DefensivePlayCall` dataclass (fields the engine reads). -/
structure DefensivePlayCall where
  side : Side
  front : DefenseFront
  flavor : DefensePlayFlavor
  coverage : CoverageShell
deriving DecidableEq, Repr

/-- `PlayCall` wrapper bundling both sides' decisions. -/
structure PlayCall where
  offense : OffensivePlayCall
  defense : DefensivePlayCall
deriving DecidableEq, Repr

/-! ### engine.py -/

/-- `CoreOffenseFamily`: the small set of Statis-style offense families. -/
inductive CoreOffenseFamily where
  | INSIDE_RUN | OUTSIDE_RUN | OPTION_RUN
  | QUICK_PASS | SHORT_PASS | INTERMEDIATE_PASS | DEEP_PASS | SCREEN_PASS
  | PLAY_ACTION
  | SPIKE | KNEEL
deriving DecidableEq, Repr, Fintype

/-- Python `.name` of a `CoreOffenseFamily`. -/
def CoreOffenseFamily.pyName : CoreOffenseFamily → String
  | .INSIDE_RUN => "INSIDE_RUN"
  | .OUTSIDE_RUN => "OUTSIDE_RUN"
  | .OPTION_RUN => "OPTION_RUN"
  | .QUICK_PASS => "QUICK_PASS"
  | .SHORT_PASS => "SHORT_PASS"
  | .INTERMEDIATE_PASS => "INTERMEDIATE_PASS"
  | .DEEP_PASS => "DEEP_PASS"
  | .SCREEN_PASS => "SCREEN_PASS"
  | .PLAY_ACTION => "PLAY_ACTION"
  | .SPIKE => "SPIKE"
  | .KNEEL => "KNEEL"

/-- `CoreDefenseFamily`: the small set of Statis-style defense families. -/
inductive CoreDefenseFamily where
  | BASE
  | RUN_FOCUS | RUN_BLITZ
  | PASS_FOCUS | PASS_BLITZ | ALL_OUT_BLITZ
  | PREVENT | CONTAIN | QB_SPY
deriving DecidableEq, Repr, Fintype

/-- Python `.name` of a `CoreDefenseFamily`. -/
def CoreDefenseFamily.pyName : CoreDefenseFamily → String
  | .BASE => "BASE"
  | .RUN_FOCUS => "RUN_FOCUS"
  | .RUN_BLITZ => "RUN_BLITZ"
  | .PASS_FOCUS => "PASS_FOCUS"
  | .PASS_BLITZ => "PASS_BLITZ"
  | .ALL_OUT_BLITZ => "ALL_OUT_BLITZ"
  | .PREVENT => "PREVENT"
  | .CONTAIN => "CONTAIN"
  | .QB_SPY => "QB_SPY"

/-- `ResolvedPlay` dataclass: result of a single play. -/
structure ResolvedPlay where
  offense_side : Side
  defense_side : Side
  yards_gained : ℤ
  description : String
  first_down : Bool
  turnover : Bool
  touchdown : Bool
  new_down : ℤ
  new_distance : ℤ
  new_yard_line : ℤ
  new_time_remaining : ℤ
deriving DecidableEq, Repr

/-! String helpers modelling the Python string operations the engine
uses (`in` substring tests, `.replace('_', ' ')`, `.title()`, `:+d`). -/

/-- Does the pattern (second list) occur at the head of the first list? -/
def leadMatch : List Char → List Char → Bool
  | _, [] => true
  | [], _ :: _ => false
  | a :: as, b :: bs => a == b && leadMatch as bs

/-- Does the pattern (second list) occur anywhere inside the first list? -/
def hasInside : List Char → List Char → Bool
  | [], pat => pat.isEmpty
  | a :: as, pat => leadMatch (a :: as) pat || hasInside as pat

/-- Python `pat in hay` on strings. -/
def containsStr (hay pat : String) : Bool := hasInside hay.data pat.data

/-- Python `s.upper()` (ASCII), character by character. -/
def pyUpper (s : String) : String := ⟨s.data.map Char.toUpper⟩

/-- Python `s.replace('_', ' ')`. -/
def replaceUnderscores (s : String) : String :=
  ⟨s.data.map (fun c => if c = '_' then ' ' else c)⟩

/-- Helper for Python `str.title()`: uppercase an alphabetic character
that follows a non-alphabetic one, lowercase the rest. -/
def pyTitleGo : Bool → List Char → List Char
  | _, [] => []
  | prevAlpha, c :: rest =>
    (if c.isAlpha then (if prevAlpha then c.toLower else c.toUpper) else c)
      :: pyTitleGo c.isAlpha rest

/-- Python `s.title()` (ASCII). -/
def pyTitle (s : String) : String := ⟨pyTitleGo false s.data⟩

/-- Python `f"{n:+d}"`: sign-prefixed decimal. -/
def signFmt (n : ℤ) : String :=
  if 0 ≤ n then "+" ++ toString n else toString n

/-- The `legacy` exact-match table of `_map_offense_to_core`. -/
def offenseLegacy : List (String × CoreOffenseFamily) :=
  [("INSIDE_RUN", .INSIDE_RUN),
   ("OUTSIDE_RUN", .OUTSIDE_RUN),
   ("DRAW", .INSIDE_RUN),
   ("QB_SNEAK", .SPIKE),
   ("QB_KEEPER", .OPTION_RUN),
   ("SHORT_PASS", .SHORT_PASS),
   ("INTERMEDIATE_PASS", .INTERMEDIATE_PASS),
   ("DEEP_SHOT", .DEEP_PASS),
   ("SCREEN_PASS", .SCREEN_PASS),
   ("PLAY_ACTION", .PLAY_ACTION),
   ("SPIKE", .SPIKE),
   ("KNEEL", .KNEEL)]

/-- `_map_offense_to_core` from engine.py: upper-case the identifier's
name, try the legacy exact-match table, then the keyword heuristics in
source order, and finally default to `SHORT_PASS`. -/
def _map_offense_to_core (ident : String) : CoreOffenseFamily :=
  let name := pyUpper ident
  match offenseLegacy.lookup name with
  | some fam => fam
  | none =>
    if name = "SPIKE" then .SPIKE
    else if name = "KNEEL" then .KNEEL
    else if containsStr name "SCREEN" then .SCREEN_PASS
    else if containsStr name "PLAY_ACTION" || name = "BOOTLEG" || name = "ROLL_OUT" then
      .PLAY_ACTION
    else if containsStr name "INSIDE" || containsStr name "POWER" ||
        containsStr name "COUNTER" || containsStr name "TRAP" ||
        containsStr name "ISO" || containsStr name "DRAW" ||
        containsStr name "DELAY" then .INSIDE_RUN
    else if containsStr name "OUTSIDE" || containsStr name "SWEEP" ||
        containsStr name "TOSS" || containsStr name "JET" ||
        containsStr name "REVERSE" then .OUTSIDE_RUN
    else if containsStr name "OPTION" || containsStr name "KEEPER" ||
        containsStr name "SNEAK" || containsStr name "QB_" then .OPTION_RUN
    else if containsStr name "QUICK" || containsStr name "HITCH" ||
        containsStr name "SLANT" || containsStr name "BUBBLE" ||
        containsStr name "SMOKE" then .QUICK_PASS
    else if containsStr name "MESH" || containsStr name "OUT" ||
        containsStr name "CROSS" || containsStr name "SEAM" then .SHORT_PASS
    else if containsStr name "DIG" || containsStr name "COMEBACK" ||
        containsStr name "DEEP_OUT" || containsStr name "CROSSERS" then
      .INTERMEDIATE_PASS
    else if containsStr name "GO" || containsStr name "POST" ||
        containsStr name "CORNER" || containsStr name "FADE" ||
        containsStr name "DEEP" then .DEEP_PASS
    else .SHORT_PASS

/-- The conjunction-free record of whether any keyword heuristic of
`_map_offense_to_core` fires on an (already upper-cased) name; used to
state the default-fallback property. -/
def offenseKeywordHit (name : String) : Bool :=
  name = "SPIKE" || name = "KNEEL" ||
  containsStr name "SCREEN" ||
  containsStr name "PLAY_ACTION" || name = "BOOTLEG" || name = "ROLL_OUT" ||
  containsStr name "INSIDE" || containsStr name "POWER" ||
  containsStr name "COUNTER" || containsStr name "TRAP" ||
  containsStr name "ISO" || containsStr name "DRAW" ||
  containsStr name "DELAY" ||
  containsStr name "OUTSIDE" || containsStr name "SWEEP" ||
  containsStr name "TOSS" || containsStr name "JET" ||
  containsStr name "REVERSE" ||
  containsStr name "OPTION" || containsStr name "KEEPER" ||
  containsStr name "SNEAK" || containsStr name "QB_" ||
  containsStr name "QUICK" || containsStr name "HITCH" ||
  containsStr name "SLANT" || containsStr name "BUBBLE" ||
  containsStr name "SMOKE" ||
  containsStr name "MESH" || containsStr name "OUT" ||
  containsStr name "CROSS" || containsStr name "SEAM" ||
  containsStr name "DIG" || containsStr name "COMEBACK" ||
  containsStr name "DEEP_OUT" || containsStr name "CROSSERS" ||
  containsStr name "GO" || containsStr name "POST" ||
  containsStr name "CORNER" || containsStr name "FADE" ||
  containsStr name "DEEP"

/-- The `legacy` exact-match table of `_map_defense_to_core`. -/
def defenseLegacy : List (String × CoreDefenseFamily) :=
  [("BASE", .BASE),
   ("RUN_FOCUS", .RUN_FOCUS),
   ("RUN_BLITZ", .RUN_BLITZ),
   ("PASS_FOCUS", .PASS_FOCUS),
   ("PASS_BLITZ", .PASS_BLITZ),
   ("ALL_OUT_BLITZ", .ALL_OUT_BLITZ),
   ("PREVENT", .PREVENT),
   ("CONTAIN", .CONTAIN),
   ("QB_SPY", .QB_SPY),
   ("GOAL_LINE_SOLD_OUT", .RUN_FOCUS)]

/-- `_map_defense_to_core` from engine.py: upper-case the identifier's
name and look it up in the legacy table, defaulting to `BASE`. -/
def _map_defense_to_core (ident : String) : CoreDefenseFamily :=
  (defenseLegacy.lookup (pyUpper ident)).getD .BASE

/-- The `base` band table of `_yardage_band`. -/
def bandBase : CoreOffenseFamily → ℤ × ℤ
  | .INSIDE_RUN => (-2, 6)
  | .OUTSIDE_RUN => (-3, 8)
  | .OPTION_RUN => (-3, 10)
  | .QUICK_PASS => (-4, 10)
  | .SHORT_PASS => (-5, 12)
  | .INTERMEDIATE_PASS => (-8, 18)
  | .DEEP_PASS => (-10, 35)
  | .SCREEN_PASS => (-6, 18)
  | .PLAY_ACTION => (-5, 25)
  | .SPIKE => (0, 0)
  | .KNEEL => (-1, -1)

/-- Is the offense family one of the run families (membership test used
by the RUN_FOCUS / RUN_BLITZ adjustments)? -/
def isRunFamily (fam : CoreOffenseFamily) : Bool :=
  fam = .INSIDE_RUN || fam = .OUTSIDE_RUN || fam = .OPTION_RUN

/-- Is the offense family one of the six pass families (membership test
used by the PASS_FOCUS / PASS_BLITZ adjustments)? -/
def isPassFamily (fam : CoreOffenseFamily) : Bool :=
  fam = .QUICK_PASS || fam = .SHORT_PASS || fam = .INTERMEDIATE_PASS ||
  fam = .DEEP_PASS || fam = .SCREEN_PASS || fam = .PLAY_ACTION

/-- `_yardage_band` from engine.py: base band, defense adjustment,
global clamp to `[-15, 50]`, and a final swap if the band inverted. -/
def _yardage_band (offense_family : CoreOffenseFamily)
    (defense_family : CoreDefenseFamily) : ℤ × ℤ :=
  let p := bandBase offense_family
  let min_y := p.1
  let max_y := p.2
  let q : ℤ × ℤ :=
    if defense_family = .RUN_FOCUS then
      if isRunFamily offense_family then (min_y - 2, max_y - 1)
      else (min_y, max_y + 3)
    else if defense_family = .RUN_BLITZ then
      if isRunFamily offense_family then (min_y - 3, max_y + 1)
      else (min_y - 6, max_y)
    else if defense_family = .PASS_FOCUS then
      if isPassFamily offense_family then (min_y - 3, max_y - 3)
      else (min_y, max_y + 4)
    else if defense_family = .PASS_BLITZ then
      if isPassFamily offense_family then (min_y - 8, max_y + 8)
      else (min_y - 2, max_y)
    else if defense_family = .ALL_OUT_BLITZ then (min_y - 10, max_y + 15)
    else if defense_family = .PREVENT then
      if offense_family = .QUICK_PASS || offense_family = .SHORT_PASS ||
          offense_family = .SCREEN_PASS || offense_family = .INSIDE_RUN then
        (min_y, max_y + 4)
      else (min_y - 3, max_y - 5)
    else if defense_family = .CONTAIN then (max min_y (-3), min max_y 12)
    else (min_y, max_y)
  let min_c := max q.1 (-15)
  let max_c := min q.2 50
  if max_c < min_c then (max_c, min_c) else (min_c, max_c)

/-- `_clock_runoff_seconds` from engine.py: 5 seconds for SPIKE / KNEEL,
15 for a play that gains no yards, 25 otherwise. -/
def _clock_runoff_seconds (offense_family : CoreOffenseFamily)
    (yards_gained : ℤ) : ℤ :=
  if offense_family = .SPIKE ∨ offense_family = .KNEEL then 5
  else if yards_gained ≤ 0 then 15
  else 25

/-- The yards produced for a play: 0 for SPIKE, -1 for KNEEL, otherwise a
draw from the RNG oracle over the yardage band (`rng.randint(min, max)`). -/
def playYards (rand : ℤ → ℤ → ℤ) (off_family : CoreOffenseFamily)
    (def_family : CoreDefenseFamily) : ℤ :=
  if off_family = .SPIKE ∨ off_family = .KNEEL then
    if off_family = .SPIKE then 0 else -1
  else
    rand (_yardage_band off_family def_family).1 (_yardage_band off_family def_family).2

/-- `resolve_play` from engine.py: the core engine.  `rand lo hi` stands
for `rng.randint(lo, hi)`. -/
def resolve_play (rand : ℤ → ℤ → ℤ) (state : GameState)
    (play_call : PlayCall) : GameState × ResolvedPlay :=
  let offense := play_call.offense
  let defense := play_call.defense
  -- Safety check: if state.possession doesn't match the declared
  -- offense side, trust the state.
  let offense_side :=
    if state.possession ≠ offense.side then state.possession else offense.side
  let defense_side :=
    if state.possession ≠ offense.side then
      (if state.possession = Side.AWAY then Side.HOME else Side.AWAY)
    else defense.side
  let off_family := _map_offense_to_core offense.play_type.pyName
  let def_family := _map_defense_to_core defense.flavor.pyName
  let yards := playYards rand off_family def_family
  let offense_yard_before := state.yard_line_from_offense_perspective
  let offense_yard_after := max 0 (min 100 (offense_yard_before + yards))
  let touchdown : Bool := decide (100 ≤ offense_yard_after)
  let first_down : Bool := !touchdown && decide (state.distance ≤ yards)
  let turnover : Bool := false
  let state_after_downs :=
    state.next_down_after_play yards first_down touchdown turnover
  let scored_state :=
    if touchdown = true then
      let sc := (state_after_downs.with_added_points offense_side 6)
      let receiving_side := defense_side
      let kickoff_spot : ℤ := if receiving_side = Side.HOME then 25 else 75
      { sc with possession := receiving_side
                down := 1
                distance := 10
                yard_line := kickoff_spot
                current_drive_play_count := 0
                current_drive_yards := 0
                current_drive_start_yard_line := kickoff_spot
                clock_running := false }
    else state_after_downs
  let time_runoff := _clock_runoff_seconds off_family yards
  let new_time := max 0 (scored_state.time_remaining - time_runoff)
  let final_state := { scored_state with time_remaining := new_time }
  let pt_name := offense.play_type.pyName
  let df_name := defense.flavor.pyName
  let desc :=
    offense_side.pyName ++ " " ++ pyTitle (replaceUnderscores pt_name) ++
    " (core=" ++ off_family.pyName ++ ") vs " ++
    pyTitle (replaceUnderscores df_name) ++
    " (core=" ++ def_family.pyName ++ ") for " ++ signFmt yards ++ " yards"
  let desc := if touchdown = true then desc ++ " — TOUCHDOWN" else desc
  (final_state,
   { offense_side := offense_side
     defense_side := defense_side
     yards_gained := yards
     description := desc
     first_down := first_down
     turnover := turnover
     touchdown := touchdown
     new_down := final_state.down
     new_distance := final_state.distance
     new_yard_line := final_state.yard_line
     new_time_remaining := final_state.time_remaining })

/-- Fold `resolve_play` over a list of play calls (used to state the
across-a-sequence clock invariant). -/
def run_plays (rand : ℤ → ℤ → ℤ) (state : GameState)
    (plays : List PlayCall) : GameState :=
  plays.foldl (fun st pc => (resolve_play rand st pc).1) state

/-- The core-family pair a play call resolves to (offense side). -/
def playOffFamily (pc : PlayCall) : CoreOffenseFamily :=
  _map_offense_to_core pc.offense.play_type.pyName

/-- The core-family pair a play call resolves to (defense side). -/
def playDefFamily (pc : PlayCall) : CoreDefenseFamily :=
  _map_defense_to_core pc.defense.flavor.pyName

/-- The side opposite a given side (the expression
`Side.HOME if side is Side.AWAY else Side.AWAY` used in the engine). -/
def otherSide (s : Side) : Side :=
  if s = Side.AWAY then Side.HOME else Side.AWAY

/-! Named forms of the intermediate values of `resolve_play` (its
let-bindings, lifted to top level so theorems can speak about them; the
lemma `resolve_play_decomp` below shows by `rfl` that `resolve_play`
is exactly their composition). -/

/-- The offense side `resolve_play` actually uses after its safety check. -/
def rpOffSide (s : GameState) (pc : PlayCall) : Side :=
  if s.possession ≠ pc.offense.side then s.possession else pc.offense.side

/-- The defense side `resolve_play` actually uses after its safety check. -/
def rpDefSide (s : GameState) (pc : PlayCall) : Side :=
  if s.possession ≠ pc.offense.side then
    (if s.possession = Side.AWAY then Side.HOME else Side.AWAY)
  else pc.defense.side

/-- The yards produced for the play. -/
def rpYards (rand : ℤ → ℤ → ℤ) (pc : PlayCall) : ℤ :=
  playYards rand (playOffFamily pc) (playDefFamily pc)

/-- Offense-perspective spot after the play, clamped to the field. -/
def rpSpotAfter (rand : ℤ → ℤ → ℤ) (s : GameState) (pc : PlayCall) : ℤ :=
  max 0 (min 100 (s.yard_line_from_offense_perspective + rpYards rand pc))

/-- The touchdown flag computed by `resolve_play`. -/
def rpTouchdown (rand : ℤ → ℤ → ℤ) (s : GameState) (pc : PlayCall) : Bool :=
  decide (100 ≤ rpSpotAfter rand s pc)

/-- The first-down flag computed by `resolve_play`. -/
def rpFirstDown (rand : ℤ → ℤ → ℤ) (s : GameState) (pc : PlayCall) : Bool :=
  !rpTouchdown rand s pc && decide (s.distance ≤ rpYards rand pc)

/-- The state after the down advance inside `resolve_play`. -/
def rpStateAfterDowns (rand : ℤ → ℤ → ℤ) (s : GameState) (pc : PlayCall) :
    GameState :=
  s.next_down_after_play (rpYards rand pc) (rpFirstDown rand s pc)
    (rpTouchdown rand s pc) false

/-- The state after scoring and kickoff reset inside `resolve_play`. -/
def rpScored (rand : ℤ → ℤ → ℤ) (s : GameState) (pc : PlayCall) : GameState :=
  if rpTouchdown rand s pc = true then
    let sc := (rpStateAfterDowns rand s pc).with_added_points (rpOffSide s pc) 6
    let receiving_side := rpDefSide s pc
    let kickoff_spot : ℤ := if receiving_side = Side.HOME then 25 else 75
    { sc with possession := receiving_side
              down := 1
              distance := 10
              yard_line := kickoff_spot
              current_drive_play_count := 0
              current_drive_yards := 0
              current_drive_start_yard_line := kickoff_spot
              clock_running := false }
  else rpStateAfterDowns rand s pc

/-- The clock runoff for the play. -/
def rpRunoff (rand : ℤ → ℤ → ℤ) (pc : PlayCall) : ℤ :=
  _clock_runoff_seconds (playOffFamily pc) (rpYards rand pc)

/-- The final state returned by `resolve_play`. -/
def rpFinal (rand : ℤ → ℤ → ℤ) (s : GameState) (pc : PlayCall) : GameState :=
  { rpScored rand s pc with
    time_remaining :=
      max 0 ((rpScored rand s pc).time_remaining - rpRunoff rand pc) }

/-- The log line built by `resolve_play`. -/
def rpDesc (rand : ℤ → ℤ → ℤ) (s : GameState) (pc : PlayCall) : String :=
  let desc :=
    (rpOffSide s pc).pyName ++ " " ++
    pyTitle (replaceUnderscores pc.offense.play_type.pyName) ++
    " (core=" ++ (playOffFamily pc).pyName ++ ") vs " ++
    pyTitle (replaceUnderscores pc.defense.flavor.pyName) ++
    " (core=" ++ (playDefFamily pc).pyName ++ ") for " ++
    signFmt (rpYards rand pc) ++ " yards"
  if rpTouchdown rand s pc = true then desc ++ " — TOUCHDOWN" else desc

/-! ### Concrete inputs used by the witness theorems -/

/-- RNG oracle that always draws the band minimum. -/
def wRandLo : ℤ → ℤ → ℤ := fun lo _ => lo

/-- RNG oracle that always draws the band maximum. -/
def wRandHi : ℤ → ℤ → ℤ := fun _ hi => hi

/-- A baseline game state: Q1, 15:00, HOME ball, 1st and 10 at the HOME 25. -/
def wState : GameState :=
  { home_name := "Home Team", home_abbr := "HOM"
    away_name := "Away Team", away_abbr := "AWY"
    quarter := 1, time_remaining := 900, possession := Side.HOME
    down := 1, distance := 10, yard_line := 25, hash_mark := "MIDDLE"
    home_timeouts := 3, away_timeouts := 3
    scores := ScoreByQuarter.initial
    current_drive_play_count := 0, current_drive_yards := 0
    current_drive_start_yard_line := 25
    clock_running := false, game_over := false }

/-- HOME at the opposing 1-yard line (spot 99). -/
def wStateGoalToGo : GameState := { wState with yard_line := 99 }

/-- HOME facing 4th down at its own 25. -/
def wStateFourth : GameState := { wState with down := 4 }

/-- HOME backed up at its own 2-yard line. -/
def wStateBackedUp : GameState := { wState with yard_line := 2 }

/-- HOME inside-zone run against an AWAY base defense. -/
def wCallInside : PlayCall :=
  { offense := { side := Side.HOME, play_type := OffensePlayType.INSIDE_ZONE }
    defense := { side := Side.AWAY, front := DefenseFront.FOUR_THREE
                 flavor := DefensePlayFlavor.BASE
                 coverage := CoverageShell.COVER_2 } }

/-- HOME kneel against an AWAY base defense. -/
def wCallKneel : PlayCall :=
  { wCallInside with
    offense := { side := Side.HOME, play_type := OffensePlayType.KNEEL } }

/-- HOME QB sneak against an AWAY base defense. -/
def wCallSneak : PlayCall :=
  { wCallInside with
    offense := { side := Side.HOME, play_type := OffensePlayType.QB_SNEAK } }

/-- A malformed play call declaring HOME on both offense and defense. -/
def wCallBothHome : PlayCall :=
  { wCallInside with
    defense := { side := Side.HOME, front := DefenseFront.FOUR_THREE
                 flavor := DefensePlayFlavor.BASE
                 coverage := CoverageShell.COVER_2 } }

/-! ## Theorems -/

/-- `resolve_play` is exactly the composition of its named intermediate
values: the pair of the final state and the `ResolvedPlay` record.  Holds
by definitional unfolding, which ties every `rp*` helper to the engine. -/
theorem resolve_play_decomp (rand : ℤ → ℤ → ℤ) (s : GameState) (pc : PlayCall) :
    resolve_play rand s pc =
      (rpFinal rand s pc,
       { offense_side := rpOffSide s pc
         defense_side := rpDefSide s pc
         yards_gained := rpYards rand pc
         description := rpDesc rand s pc
         first_down := rpFirstDown rand s pc
         turnover := false
         touchdown := rpTouchdown rand s pc
         new_down := (rpFinal rand s pc).down
         new_distance := (rpFinal rand s pc).distance
         new_yard_line := (rpFinal rand s pc).yard_line
         new_time_remaining := (rpFinal rand s pc).time_remaining }) := rfl

/-- The down-advance procedure never touches the clock. -/
theorem next_down_time_eq (s : GameState) (y : ℤ) (fd td tov : Bool) :
    (s.next_down_after_play y fd td tov).time_remaining = s.time_remaining := by
  dsimp only [GameState.next_down_after_play]
  split_ifs <;> rfl

/-- The down-advance procedure never touches the scoreboard. -/
theorem next_down_scores_eq (s : GameState) (y : ℤ) (fd td tov : Bool) :
    (s.next_down_after_play y fd td tov).scores = s.scores := by
  dsimp only [GameState.next_down_after_play]
  split_ifs <;> rfl

/-- The down-advance procedure never touches the quarter. -/
theorem next_down_quarter_eq (s : GameState) (y : ℤ) (fd td tov : Bool) :
    (s.next_down_after_play y fd td tov).quarter = s.quarter := by
  dsimp only [GameState.next_down_after_play]
  split_ifs <;> rfl

/-- Adding points changes only the scoreboard, not the clock. -/
theorem with_added_points_time_eq (s : GameState) (side : Side) (p : ℤ) :
    (s.with_added_points side p).time_remaining = s.time_remaining := rfl

/-- The clock runoff is always positive (5, 15 or 25 seconds). -/
theorem runoff_pos (f : CoreOffenseFamily) (y : ℤ) :
    0 < _clock_runoff_seconds f y := by
  dsimp only [_clock_runoff_seconds]
  split_ifs <;> norm_num

/-- Scoring and kickoff reset never touch the clock. -/
theorem rpScored_time_eq (rand : ℤ → ℤ → ℤ) (s : GameState) (pc : PlayCall) :
    (rpScored rand s pc).time_remaining = s.time_remaining := by
  dsimp only [rpScored, rpStateAfterDowns]
  split_ifs <;> simp only [with_added_points_time_eq, next_down_time_eq]

/-- The final clock value of a resolved play, in closed form. -/
theorem resolve_play_time_eq (rand : ℤ → ℤ → ℤ) (s : GameState) (pc : PlayCall) :
    (resolve_play rand s pc).1.time_remaining =
      max 0 (s.time_remaining - rpRunoff rand pc) := by
  rw [resolve_play_decomp]
  show (rpFinal rand s pc).time_remaining = _
  dsimp only [rpFinal]
  rw [rpScored_time_eq]

/-- The offense side used by the engine is always `state.possession`. -/
theorem rpOffSide_eq (s : GameState) (pc : PlayCall) :
    rpOffSide s pc = s.possession := by
  dsimp only [rpOffSide]
  by_cases h : s.possession = pc.offense.side
  · rw [if_neg (by simp [h])]; exact h.symm
  · rw [if_pos (by simp [h])]

/-- When the play call declares distinct sides, the defense side used by
the engine is the side opposite `state.possession`. -/
theorem rpDefSide_eq (s : GameState) (pc : PlayCall)
    (hside : pc.offense.side ≠ pc.defense.side) :
    rpDefSide s pc = otherSide s.possession := by
  dsimp only [rpDefSide, otherSide]
  by_cases h : s.possession = pc.offense.side
  · rw [if_neg (by simp [h])]
    cases hp : s.possession <;> cases hd : pc.defense.side <;> simp_all
  · rw [if_pos (by simp [h])]

/-- Shared helper: with a touchdown flag or a goal-line arrival, the
down-advance procedure only updates the yard line. -/
theorem next_down_frame_of_goal (s : GameState) (y : ℤ) (fd td tov : Bool)
    (h : td = true ∨ s.clamped_spot_after y = 0 ∨ s.clamped_spot_after y = 100) :
    s.next_down_after_play y fd td tov =
      { s with yard_line := s.clamped_spot_after y } := by
  dsimp only [GameState.next_down_after_play]
  rw [if_pos h]

/-- C2: for every pair of a CoreOffenseFamily and a CoreDefenseFamily, the
band (min, max) computed by `_yardage_band` (base lookup, defense
adjustment, global clamp and swap) satisfies -15 ≤ min ≤ max ≤ 50. -/
theorem yardage_band_within_global_bounds :
    ∀ (o : CoreOffenseFamily) (d : CoreDefenseFamily),
      -15 ≤ (_yardage_band o d).1 ∧
      (_yardage_band o d).1 ≤ (_yardage_band o d).2 ∧
      (_yardage_band o d).2 ≤ 50 := by decide

/-- C8: for every GameState, `next_down_after_play` called with
touchdown = true, or with a clamped post-play yard line of exactly 0 or
100, returns the state with only `yard_line` updated; every other field
is unchanged. -/
theorem next_down_goal_line_frame (s : GameState) (y : ℤ) (fd td tov : Bool)
    (h : td = true ∨ s.clamped_spot_after y = 0 ∨ s.clamped_spot_after y = 100) :
    s.next_down_after_play y fd td tov =
      { s with yard_line := s.clamped_spot_after y } :=
  next_down_frame_of_goal s y fd td tov h

/-- Witness for C8: HOME tackled at its own goal line from the 2. -/
theorem next_down_goal_line_frame_witness :
    wStateBackedUp.clamped_spot_after (-2) = 0 ∧
    wStateBackedUp.next_down_after_play (-2) false false false =
      { wStateBackedUp with yard_line := wStateBackedUp.clamped_spot_after (-2) } :=
  ⟨by decide,
   next_down_goal_line_frame wStateBackedUp (-2) false false false
     (Or.inr (Or.inl (by decide)))⟩

/-- C3: on 4th down, with no touchdown / turnover / first down and a
clamped post-play spot away from either goal line, `next_down_after_play`
flips possession, resets to 1st and 10 at the post-play spot, and zeroes
the drive counters (the drive start becomes the post-play spot). -/
theorem next_down_turnover_on_downs (s : GameState) (y : ℤ)
    (hdown : s.down = 4)
    (h0 : s.clamped_spot_after y ≠ 0) (h100 : s.clamped_spot_after y ≠ 100) :
    s.next_down_after_play y false false false =
      { s with possession := s.defense_side
               down := 1
               distance := 10
               yard_line := s.clamped_spot_after y
               current_drive_play_count := 0
               current_drive_yards := 0
               current_drive_start_yard_line := s.clamped_spot_after y } := by
  dsimp only [GameState.next_down_after_play]
  rw [if_neg (by simp [h0, h100]), if_neg (by simp), if_neg (by simp),
    if_pos (by rw [hdown]; norm_num)]

/-- Witness for C3: 4th down at the HOME 25, two-yard loss. -/
theorem next_down_turnover_on_downs_witness :
    wStateFourth.down = 4 ∧
    wStateFourth.clamped_spot_after (-2) ≠ 0 ∧
    wStateFourth.clamped_spot_after (-2) ≠ 100 ∧
    wStateFourth.next_down_after_play (-2) false false false =
      { wStateFourth with possession := wStateFourth.defense_side
                          down := 1
                          distance := 10
                          yard_line := wStateFourth.clamped_spot_after (-2)
                          current_drive_play_count := 0
                          current_drive_yards := 0
                          current_drive_start_yard_line :=
                            wStateFourth.clamped_spot_after (-2) } :=
  ⟨rfl, by decide, by decide,
   next_down_turnover_on_downs wStateFourth (-2) rfl (by decide) (by decide)⟩

/-- Shared helper: a single resolved play lowers the clock and keeps it
non-negative, provided the incoming clock is non-negative. -/
theorem clock_step (rand : ℤ → ℤ → ℤ) (s : GameState) (pc : PlayCall)
    (h : 0 ≤ s.time_remaining) :
    (resolve_play rand s pc).1.time_remaining ≤ s.time_remaining ∧
    0 ≤ (resolve_play rand s pc).1.time_remaining := by
  rw [resolve_play_time_eq]
  have hr := runoff_pos (playOffFamily pc) (rpYards rand pc)
  dsimp only [rpRunoff]
  omega

/-- Shared helper: the clock invariant propagates along a play sequence. -/
theorem clock_run_plays (rand : ℤ → ℤ → ℤ) :
    ∀ (plays : List PlayCall) (s : GameState), 0 ≤ s.time_remaining →
      (run_plays rand s plays).time_remaining ≤ s.time_remaining ∧
      0 ≤ (run_plays rand s plays).time_remaining := by
  intro plays
  induction plays with
  | nil => exact fun s h => ⟨le_refl _, h⟩
  | cons pc rest ih =>
    intro s h
    have h1 := clock_step rand s pc h
    have h2 := ih (resolve_play rand s pc).1 h1.2
    exact ⟨le_trans h2.1 h1.1, h2.2⟩

/-- C5: for every GameState and PlayCall, the state returned by
`resolve_play` has `time_remaining` at most the input's and at least 0;
consequently the clock is monotonically non-increasing and never negative
across any sequence of resolved plays. -/
theorem resolve_play_clock_monotone (rand : ℤ → ℤ → ℤ) (s : GameState)
    (pc : PlayCall) (plays : List PlayCall) (h : 0 ≤ s.time_remaining) :
    ((resolve_play rand s pc).1.time_remaining ≤ s.time_remaining ∧
      0 ≤ (resolve_play rand s pc).1.time_remaining) ∧
    ((run_plays rand s plays).time_remaining ≤ s.time_remaining ∧
      0 ≤ (run_plays rand s plays).time_remaining) :=
  ⟨clock_step rand s pc h, clock_run_plays rand plays s h⟩

/-- Witness for C5: one inside run and a two-play sequence from 15:00. -/
theorem resolve_play_clock_monotone_witness :
    (0 : ℤ) ≤ wState.time_remaining ∧
    (((resolve_play wRandLo wState wCallInside).1.time_remaining ≤
        wState.time_remaining ∧
      0 ≤ (resolve_play wRandLo wState wCallInside).1.time_remaining) ∧
     ((run_plays wRandLo wState [wCallInside, wCallKneel]).time_remaining ≤
        wState.time_remaining ∧
      0 ≤ (run_plays wRandLo wState [wCallInside, wCallKneel]).time_remaining)) :=
  ⟨by decide,
   resolve_play_clock_monotone wRandLo wState wCallInside [wCallInside, wCallKneel]
     (by decide)⟩

/-- A SPIKE play never consults the RNG band: 0 yards. -/
theorem playYards_spike (r : ℤ → ℤ → ℤ) (d : CoreDefenseFamily) :
    playYards r CoreOffenseFamily.SPIKE d = 0 := by
  simp [playYards]

/-- A KNEEL play never consults the RNG band: -1 yards. -/
theorem playYards_kneel (r : ℤ → ℤ → ℤ) (d : CoreDefenseFamily) :
    playYards r CoreOffenseFamily.KNEEL d = -1 := by
  simp [playYards]

/-- SPIKE clock runoff is 5 seconds. -/
theorem runoff_spike (y : ℤ) :
    _clock_runoff_seconds CoreOffenseFamily.SPIKE y = 5 := by
  simp [_clock_runoff_seconds]

/-- KNEEL clock runoff is 5 seconds. -/
theorem runoff_kneel (y : ℤ) :
    _clock_runoff_seconds CoreOffenseFamily.KNEEL y = 5 := by
  simp [_clock_runoff_seconds]

/-- Shared helper: without a touchdown, the scoring step is a no-op. -/
theorem rpScored_no_td (rand : ℤ → ℤ → ℤ) (s : GameState) (pc : PlayCall)
    (h : rpTouchdown rand s pc = false) :
    rpScored rand s pc = rpStateAfterDowns rand s pc := by
  dsimp only [rpScored]
  rw [if_neg (by simp [h])]

/-- Shared helper: with a touchdown, the scoring step credits 6 points to
the engine's offense side and hands the ball to the engine's defense side
at its own 25 with the drive counters reset and the clock stopped. -/
theorem rpScored_td_eq (rand : ℤ → ℤ → ℤ) (s : GameState) (pc : PlayCall)
    (h : rpTouchdown rand s pc = true) :
    rpScored rand s pc =
      { (rpStateAfterDowns rand s pc).with_added_points (rpOffSide s pc) 6 with
        possession := rpDefSide s pc
        down := 1
        distance := 10
        yard_line := (if rpDefSide s pc = Side.HOME then (25 : ℤ) else 75)
        current_drive_play_count := 0
        current_drive_yards := 0
        current_drive_start_yard_line :=
          (if rpDefSide s pc = Side.HOME then (25 : ℤ) else 75)
        clock_running := false } := by
  dsimp only [rpScored]
  rw [if_pos h]

/-- C7: the family mappings are total functions; `_map_defense_to_core`
returns BASE for every identifier whose (upper-cased) name is not in its
exact-match table, and `_map_offense_to_core` returns SHORT_PASS whenever
neither an exact-match entry nor any keyword rule applies. -/
theorem mapping_total_with_defaults :
    ∀ ident : String,
      (defenseLegacy.lookup (pyUpper ident) = none →
        _map_defense_to_core ident = CoreDefenseFamily.BASE) ∧
      (offenseLegacy.lookup (pyUpper ident) = none →
        offenseKeywordHit (pyUpper ident) = false →
        _map_offense_to_core ident = CoreOffenseFamily.SHORT_PASS) := by
  intro ident
  constructor
  · intro h
    dsimp only [_map_defense_to_core]
    rw [h]
    rfl
  · intro h1 h2
    dsimp only [_map_offense_to_core]
    rw [h1]
    simp only [offenseKeywordHit, Bool.or_eq_false_iff,
      decide_eq_false_iff_not] at h2
    simp_all

/-- Witness for C7: the unknown identifier "ZZZ" falls to both defaults. -/
theorem mapping_total_with_defaults_witness :
    defenseLegacy.lookup (pyUpper "ZZZ") = none ∧
    _map_defense_to_core "ZZZ" = CoreDefenseFamily.BASE ∧
    offenseLegacy.lookup (pyUpper "ZZZ") = none ∧
    offenseKeywordHit (pyUpper "ZZZ") = false ∧
    _map_offense_to_core "ZZZ" = CoreOffenseFamily.SHORT_PASS :=
  ⟨by decide, (mapping_total_with_defaults "ZZZ").1 (by decide), by decide,
   by decide, (mapping_total_with_defaults "ZZZ").2 (by decide) (by decide)⟩

/-- C9: a play whose offense play type is QB_SNEAK resolves through the
legacy table to the SPIKE family: 0 yards gained, a 5-second clock
runoff, and no RNG draw (the result does not depend on the RNG oracle);
it is not treated as an OPTION_RUN with a sampled band. -/
theorem resolve_play_qb_sneak_spike (rand rand2 : ℤ → ℤ → ℤ) (s : GameState)
    (pc : PlayCall) (h : pc.offense.play_type = OffensePlayType.QB_SNEAK) :
    playOffFamily pc = CoreOffenseFamily.SPIKE ∧
    (resolve_play rand s pc).2.yards_gained = 0 ∧
    (resolve_play rand s pc).1.time_remaining =
      max 0 (s.time_remaining - 5) ∧
    resolve_play rand2 s pc = resolve_play rand s pc := by
  have hm : playOffFamily pc = CoreOffenseFamily.SPIKE := by
    dsimp only [playOffFamily]
    rw [h]
    decide
  have hy : ∀ r : ℤ → ℤ → ℤ, rpYards r pc = 0 := by
    intro r
    dsimp only [rpYards]
    rw [hm, playYards_spike]
  refine ⟨hm, ?_, ?_, ?_⟩
  · rw [resolve_play_decomp]
    exact hy rand
  · rw [resolve_play_time_eq]
    have hr : rpRunoff rand pc = 5 := by
      dsimp only [rpRunoff]
      rw [hm, runoff_spike]
    rw [hr]
  · have hm' : _map_offense_to_core pc.offense.play_type.pyName =
        CoreOffenseFamily.SPIKE := hm
    dsimp only [resolve_play]
    simp only [hm', playYards_spike]

/-- Witness for C9: a QB sneak resolved with two different oracles. -/
theorem resolve_play_qb_sneak_spike_witness :
    wCallSneak.offense.play_type = OffensePlayType.QB_SNEAK ∧
    (playOffFamily wCallSneak = CoreOffenseFamily.SPIKE ∧
     (resolve_play wRandLo wState wCallSneak).2.yards_gained = 0 ∧
     (resolve_play wRandLo wState wCallSneak).1.time_remaining =
       max 0 (wState.time_remaining - 5) ∧
     resolve_play wRandHi wState wCallSneak =
       resolve_play wRandLo wState wCallSneak) :=
  ⟨rfl, resolve_play_qb_sneak_spike wRandLo wRandHi wState wCallSneak rfl⟩

/-- C6 (amended): the resolver reports `state.possession` as the offense
side and credits any touchdown points to it, regardless of the sides
declared in the play call; the reported defense side is the opposite side
whenever the play call's declared offense and defense sides are distinct
(when the declared offense side matches possession, the declared defense
side is taken from the call unchecked). -/
theorem resolve_play_sides_from_state (rand : ℤ → ℤ → ℤ) (s : GameState)
    (pc : PlayCall) :
    (resolve_play rand s pc).2.offense_side = s.possession ∧
    (pc.offense.side ≠ pc.defense.side →
      (resolve_play rand s pc).2.defense_side = otherSide s.possession) ∧
    ((resolve_play rand s pc).2.touchdown = true →
      (resolve_play rand s pc).1.scores =
        s.scores.add_points s.possession (s.quarter - 1).toNat 6) := by
  refine ⟨?_, ?_, ?_⟩
  · rw [resolve_play_decomp]
    exact rpOffSide_eq s pc
  · intro hside
    rw [resolve_play_decomp]
    exact rpDefSide_eq s pc hside
  · intro htd
    have htd' : rpTouchdown rand s pc = true := htd
    rw [resolve_play_decomp]
    show (rpFinal rand s pc).scores = _
    dsimp only [rpFinal]
    rw [rpScored_td_eq rand s pc htd']
    show ((rpStateAfterDowns rand s pc).with_added_points (rpOffSide s pc) 6).scores = _
    dsimp only [GameState.with_added_points, rpStateAfterDowns]
    rw [next_down_scores_eq, next_down_quarter_eq, rpOffSide_eq]

/-- Witness for C6: a touchdown play with a well-formed call. -/
theorem resolve_play_sides_from_state_witness :
    (resolve_play wRandHi wStateGoalToGo wCallInside).2.offense_side =
      wStateGoalToGo.possession ∧
    (resolve_play wRandHi wStateGoalToGo wCallInside).2.defense_side =
      otherSide wStateGoalToGo.possession ∧
    (resolve_play wRandHi wStateGoalToGo wCallInside).1.scores =
      wStateGoalToGo.scores.add_points wStateGoalToGo.possession
        (wStateGoalToGo.quarter - 1).toNat 6 :=
  ⟨(resolve_play_sides_from_state wRandHi wStateGoalToGo wCallInside).1,
   (resolve_play_sides_from_state wRandHi wStateGoalToGo wCallInside).2.1
     (by decide),
   (resolve_play_sides_from_state wRandHi wStateGoalToGo wCallInside).2.2
     (by decide)⟩

/-- Counterexample to C6 as stated: with HOME in possession and a play
call declaring HOME on both offense and defense, the resolver reports
HOME — not the opposite side — as the defense side. -/
theorem resolve_play_defense_side_cx :
    wState.possession = Side.HOME ∧
    wCallBothHome.defense.side = Side.HOME ∧
    ¬ ((resolve_play wRandLo wState wCallBothHome).2.defense_side =
        otherSide wState.possession) := by
  refine ⟨rfl, rfl, ?_⟩
  decide

/-- C4: for every structurally valid GameState (field position on the
field, distance at least 1) and every play call resolving to the KNEEL
family, `resolve_play` yields -1 yards, no turnover, no touchdown, no
first down, a 5-second clock runoff, and advances the down by the normal
down-advance rule. -/
theorem resolve_play_kneel (rand : ℤ → ℤ → ℤ) (s : GameState) (pc : PlayCall)
    (hfam : playOffFamily pc = CoreOffenseFamily.KNEEL)
    (hdist : 1 ≤ s.distance) (hy0 : 0 ≤ s.yard_line) (hy100 : s.yard_line ≤ 100) :
    (resolve_play rand s pc).2.yards_gained = -1 ∧
    (resolve_play rand s pc).2.turnover = false ∧
    (resolve_play rand s pc).2.touchdown = false ∧
    (resolve_play rand s pc).2.first_down = false ∧
    (resolve_play rand s pc).1 =
      { s.next_down_after_play (-1) false false false with
        time_remaining := max 0 (s.time_remaining - 5) } := by
  have hy : rpYards rand pc = -1 := by
    dsimp only [rpYards]
    rw [hfam, playYards_kneel]
  have hafter : rpSpotAfter rand s pc < 100 := by
    dsimp only [rpSpotAfter, GameState.yard_line_from_offense_perspective]
    rw [hy]
    split_ifs <;> omega
  have htd : rpTouchdown rand s pc = false := by
    dsimp only [rpTouchdown]
    exact decide_eq_false (by omega)
  have hfd : rpFirstDown rand s pc = false := by
    dsimp only [rpFirstDown]
    rw [htd, hy]
    simp only [Bool.not_false, Bool.true_and]
    exact decide_eq_false (by omega)
  have hrun : rpRunoff rand pc = 5 := by
    dsimp only [rpRunoff]
    rw [hfam, runoff_kneel]
  refine ⟨?_, ?_, ?_, ?_, ?_⟩
  · rw [resolve_play_decomp]
    exact hy
  · rw [resolve_play_decomp]
  · rw [resolve_play_decomp]
    exact htd
  · rw [resolve_play_decomp]
    exact hfd
  · rw [resolve_play_decomp]
    show rpFinal rand s pc = _
    dsimp only [rpFinal]
    rw [rpScored_no_td rand s pc htd, hrun]
    dsimp only [rpStateAfterDowns]
    rw [hy, hfd, htd, next_down_time_eq]

/-- Witness for C4: a kneel on 1st and 10 at the HOME 25. -/
theorem resolve_play_kneel_witness :
    playOffFamily wCallKneel = CoreOffenseFamily.KNEEL ∧
    ((resolve_play wRandLo wState wCallKneel).2.yards_gained = -1 ∧
     (resolve_play wRandLo wState wCallKneel).2.turnover = false ∧
     (resolve_play wRandLo wState wCallKneel).2.touchdown = false ∧
     (resolve_play wRandLo wState wCallKneel).2.first_down = false ∧
     (resolve_play wRandLo wState wCallKneel).1 =
       { wState.next_down_after_play (-1) false false false with
         time_remaining := max 0 (wState.time_remaining - 5) }) :=
  ⟨by decide,
   resolve_play_kneel wRandLo wState wCallKneel (by decide) (by decide)
     (by decide) (by decide)⟩

/-- C10: when the play leaves the offense at its own goal line (clamped
post-play spot 0 with HOME in possession, or 100 with AWAY in
possession) in a structurally valid state, `resolve_play` reports no
touchdown and no first down, scores no points, and changes only the
yard line and the clock. -/
theorem resolve_play_own_goal_line_frame (rand : ℤ → ℤ → ℤ) (s : GameState)
    (pc : PlayCall)
    (hdist : 1 ≤ s.distance) (hy0 : 0 ≤ s.yard_line) (hy100 : s.yard_line ≤ 100)
    (hgoal :
      (s.possession = Side.HOME ∧
        s.clamped_spot_after (rpYards rand pc) = 0) ∨
      (s.possession = Side.AWAY ∧
        s.clamped_spot_after (rpYards rand pc) = 100)) :
    (resolve_play rand s pc).2.touchdown = false ∧
    (resolve_play rand s pc).2.first_down = false ∧
    (resolve_play rand s pc).1 =
      { s with yard_line := s.clamped_spot_after (rpYards rand pc)
               time_remaining := max 0 (s.time_remaining - rpRunoff rand pc) } := by
  have hyle : rpYards rand pc ≤ 0 := by
    rcases hgoal with ⟨hp, hc⟩ | ⟨hp, hc⟩ <;>
      (dsimp only [GameState.clamped_spot_after] at hc; rw [hp] at hc;
       simp only [reduceCtorEq, if_pos, if_neg, if_true, if_false] at hc; omega)
  have hafter : rpSpotAfter rand s pc = 0 := by
    dsimp only [rpSpotAfter, GameState.yard_line_from_offense_perspective]
    rcases hgoal with ⟨hp, hc⟩ | ⟨hp, hc⟩ <;>
      (dsimp only [GameState.clamped_spot_after] at hc; rw [hp] at hc;
       rw [hp]; simp only [reduceCtorEq, if_pos, if_neg, if_true, if_false] at hc ⊢;
       omega)
  have htd : rpTouchdown rand s pc = false := by
    dsimp only [rpTouchdown]
    exact decide_eq_false (by omega)
  have hfd : rpFirstDown rand s pc = false := by
    dsimp only [rpFirstDown]
    rw [htd]
    simp only [Bool.not_false, Bool.true_and]
    exact decide_eq_false (by omega)
  have hc' : s.clamped_spot_after (rpYards rand pc) = 0 ∨
      s.clamped_spot_after (rpYards rand pc) = 100 := by
    rcases hgoal with ⟨_, hc⟩ | ⟨_, hc⟩
    · exact Or.inl hc
    · exact Or.inr hc
  refine ⟨?_, ?_, ?_⟩
  · rw [resolve_play_decomp]
    exact htd
  · rw [resolve_play_decomp]
    exact hfd
  · rw [resolve_play_decomp]
    show rpFinal rand s pc = _
    dsimp only [rpFinal]
    rw [rpScored_no_td rand s pc htd]
    dsimp only [rpStateAfterDowns]
    rw [hfd, htd, next_down_time_eq,
      next_down_frame_of_goal s (rpYards rand pc) false false false (Or.inr hc')]

/-- Witness for C10: HOME loses two yards from its own 2. -/
theorem resolve_play_own_goal_line_frame_witness :
    (wStateBackedUp.possession = Side.HOME ∧
      wStateBackedUp.clamped_spot_after (rpYards wRandLo wCallInside) = 0) ∧
    ((resolve_play wRandLo wStateBackedUp wCallInside).2.touchdown = false ∧
     (resolve_play wRandLo wStateBackedUp wCallInside).2.first_down = false ∧
     (resolve_play wRandLo wStateBackedUp wCallInside).1 =
       { wStateBackedUp with
         yard_line := wStateBackedUp.clamped_spot_after (rpYards wRandLo wCallInside)
         time_remaining :=
           max 0 (wStateBackedUp.time_remaining - rpRunoff wRandLo wCallInside) }) :=
  ⟨⟨rfl, by decide⟩,
   resolve_play_own_goal_line_frame wRandLo wStateBackedUp wCallInside
     (by decide) (by decide) (by decide) (Or.inl ⟨rfl, by decide⟩)⟩

/-- C1: when the offense-perspective spot after the play, clamped to
[0, 100], reaches 100, `resolve_play` flags a touchdown, credits 6
points to the possessing side's entry for the current quarter, and
returns a state with the defending side in possession at its own 25
(yard line 25 if that side is HOME, else 75), 1st and 10, drive
counters zeroed, and the clock stopped. -/
theorem resolve_play_touchdown_scoring (rand : ℤ → ℤ → ℤ) (s : GameState)
    (pc : PlayCall)
    (hside : pc.offense.side ≠ pc.defense.side)
    (hTD : 100 ≤ rpSpotAfter rand s pc) :
    (resolve_play rand s pc).2.touchdown = true ∧
    (resolve_play rand s pc).1.scores =
      s.scores.add_points s.possession (s.quarter - 1).toNat 6 ∧
    (resolve_play rand s pc).1.possession = otherSide s.possession ∧
    (resolve_play rand s pc).1.yard_line =
      (if otherSide s.possession = Side.HOME then 25 else 75) ∧
    (resolve_play rand s pc).1.down = 1 ∧
    (resolve_play rand s pc).1.distance = 10 ∧
    (resolve_play rand s pc).1.current_drive_play_count = 0 ∧
    (resolve_play rand s pc).1.current_drive_yards = 0 ∧
    (resolve_play rand s pc).1.current_drive_start_yard_line =
      (if otherSide s.possession = Side.HOME then 25 else 75) ∧
    (resolve_play rand s pc).1.clock_running = false := by
  have htd : rpTouchdown rand s pc = true := by
    dsimp only [rpTouchdown]
    exact decide_eq_true hTD
  have hsc := rpScored_td_eq rand s pc htd
  refine ⟨?_, ?_, ?_, ?_, ?_, ?_, ?_, ?_, ?_, ?_⟩
  · rw [resolve_play_decomp]
    exact htd
  · rw [resolve_play_decomp]
    show (rpScored rand s pc).scores = _
    rw [hsc]
    show ((rpStateAfterDowns rand s pc).with_added_points (rpOffSide s pc) 6).scores = _
    dsimp only [GameState.with_added_points, rpStateAfterDowns]
    rw [next_down_scores_eq, next_down_quarter_eq, rpOffSide_eq]
  · rw [resolve_play_decomp]
    show (rpScored rand s pc).possession = _
    rw [hsc, rpDefSide_eq s pc hside]
  · rw [resolve_play_decomp]
    show (rpScored rand s pc).yard_line = _
    rw [hsc, rpDefSide_eq s pc hside]
  · rw [resolve_play_decomp]
    show (rpScored rand s pc).down = _
    rw [hsc]
  · rw [resolve_play_decomp]
    show (rpScored rand s pc).distance = _
    rw [hsc]
  · rw [resolve_play_decomp]
    show (rpScored rand s pc).current_drive_play_count = _
    rw [hsc]
  · rw [resolve_play_decomp]
    show (rpScored rand s pc).current_drive_yards = _
    rw [hsc]
  · rw [resolve_play_decomp]
    show (rpScored rand s pc).current_drive_start_yard_line = _
    rw [hsc, rpDefSide_eq s pc hside]
  · rw [resolve_play_decomp]
    show (rpScored rand s pc).clock_running = _
    rw [hsc]

/-- Witness for C1: HOME scores on a six-yard run from the 99. -/
theorem resolve_play_touchdown_scoring_witness :
    wCallInside.offense.side ≠ wCallInside.defense.side ∧
    100 ≤ rpSpotAfter wRandHi wStateGoalToGo wCallInside ∧
    ((resolve_play wRandHi wStateGoalToGo wCallInside).2.touchdown = true ∧
     (resolve_play wRandHi wStateGoalToGo wCallInside).1.scores =
       wStateGoalToGo.scores.add_points wStateGoalToGo.possession
         (wStateGoalToGo.quarter - 1).toNat 6 ∧
     (resolve_play wRandHi wStateGoalToGo wCallInside).1.possession =
       otherSide wStateGoalToGo.possession ∧
     (resolve_play wRandHi wStateGoalToGo wCallInside).1.yard_line =
       (if otherSide wStateGoalToGo.possession = Side.HOME then 25 else 75) ∧
     (resolve_play wRandHi wStateGoalToGo wCallInside).1.down = 1 ∧
     (resolve_play wRandHi wStateGoalToGo wCallInside).1.distance = 10 ∧
     (resolve_play wRandHi wStateGoalToGo wCallInside).1.current_drive_play_count = 0 ∧
     (resolve_play wRandHi wStateGoalToGo wCallInside).1.current_drive_yards = 0 ∧
     (resolve_play wRandHi wStateGoalToGo wCallInside).1.current_drive_start_yard_line =
       (if otherSide wStateGoalToGo.possession = Side.HOME then 25 else 75) ∧
     (resolve_play wRandHi wStateGoalToGo wCallInside).1.clock_running = false) :=
  ⟨by decide, by decide,
   resolve_play_touchdown_scoring wRandHi wStateGoalToGo wCallInside
     (by decide) (by decide)⟩

end Football
